import Mathlib

/-!
Verification of the mikro-manager repository (MikroTik management CLI tools).

This file shallowly embeds, in Lean 4, the parts of the Python sources that
the verified claims are about:

* `src/mikro-common/mikro_common/access.py`  — user/group permission resolution
  (`get_user_permissions`, `check_permission`);
* `src/mikro-common/mikro_common/config.py`  — router configuration loading
  (`load_routers`, `get_router_config`);
* `src/mikro-common/mikro_common/resource.py` — the generic resource manager
  (`list_entries`, `find_entry`, `add_entry`, `update_entry`,
  `search_entries`, `export_entries`, `import_entries`);
* `src/mikro-dns/mikro_dns/dns.py`           — the DNS specialisation
  (`DNSManager.list_entries`, `DNSManager.add_entry`,
  `DNSManager.search_entries`);
* `src/mikro-common/mikro_common/cli.py`     — the error-handling structure of
  `ResourceCLI.run` / `ResourceCLI.check_permissions`.

Python dictionaries with string keys are modelled as association lists;
Python's truthiness of strings (`if not s`) is the test `s = ""`, and of
`None`-able values the test against `Option.none`.  Machine-level concerns
(YAML parsing, the RouterOS wire protocol, JSON/CSV string primitives) are
external collaborators of the repository and appear only through their
documented input/output behaviour.
-/

namespace MM

/-- Python `dict.get(k)` on a string-keyed association list: the value at the
first occurrence of the key, or `none`. -/
def dget : List (String × String) → String → Option String
  | [], _ => none
  | kv :: rest, k => if kv.1 = k then some kv.2 else dget rest k

/-- Python `dict.get(k, d)` with a default. -/
def dgetD (e : List (String × String)) (k d : String) : String :=
  (dget e k).getD d

/-- Python `dict.pop(k, None)`: the dictionary without the key. -/
def dpop (e : List (String × String)) (k : String) : List (String × String) :=
  e.filter (fun kv => kv.1 ≠ k)

/-- Python `d[k] = v` on a dict: replace the value in place when the key is
present, append the pair otherwise (insertion order is preserved, as for
Python dicts). -/
def dset (e : List (String × String)) (k v : String) :
    List (String × String) :=
  if (e.find? (fun kv => kv.1 = k)).isSome then
    e.map (fun kv => if kv.1 = k then (k, v) else kv)
  else e ++ [(k, v)]

/-- Python truthiness of an optional string (`if not value:` where `value`
came from `dict.get`): `None` and the empty string are falsy. -/
def pyFalsy : Option String → Bool
  | none => true
  | some s => s = ""

end MM

namespace MM.Access

/-!  Embedding of `mikro_common/access.py`. -/

/-- One item of a `groups:` list inside a user's permission entry.  The YAML
value is either a plain string (possibly `"group-name:access-level"`) or a
mapping with `name:` and `access:` keys (`access.py`, lines 131-141). -/
inductive GroupItem where
  | str (s : String)
  | dict (name : Option String) (access : Option String)
deriving DecidableEq, Repr

/-- Value of a group's `modules:` field: either a YAML scalar string (the
wildcard `"*"`, or a single module name, which `access.py` line 156-157 wraps
into a one-element list) or a list of module names. -/
inductive Modules where
  | str (s : String)
  | list (ms : List String)
deriving DecidableEq, Repr

/-- A group configuration (`access.py` uses its `modules`, `access` and
`default_access` keys).  `none` models an absent key (or a YAML null, which
`dict.get` also surfaces as a falsy value). -/
structure Group where
  access : Option String := none
  default_access : Option String := none
  modules : Option Modules := none
deriving DecidableEq, Repr

/-- One entry of a user's `permissions:` list; `access.py` line 125 reads its
`groups` key with default `[]`. -/
structure PermEntry where
  groups : List GroupItem := []
deriving DecidableEq, Repr

/-- A user configuration; `access.py` line 121 reads its `permissions` key
with default `[]`. -/
structure User where
  permissions : List PermEntry := []
deriving DecidableEq, Repr

/-- Python `a or b` for an optional string left operand: `None` and `""` are
falsy and select the right operand (`access.py` line 148). -/
def pyOrS (a : Option String) (b : String) : String :=
  match a with
  | some s => if s = "" then b else s
  | none => b

/-- Splitting a string group item as `group_item.split(':', 1)` does when a
colon is present: the part before the first colon and the part after it
(`access.py` line 138). -/
def splitOnceColon (s : String) : String × String :=
  match s.splitOn ":" with
  | [] => (s, "")
  | [x] => (x, "")
  | x :: rest => (x, String.intercalate ":" rest)

/-- Whether a string contains a colon (`':' in group_item`). -/
def hasColon (s : String) : Bool :=
  s.data.any (fun c => c = ':')

/-- Group name and access-level override parsed from a group item
(`access.py` lines 132-141): a dict contributes its `name` and `access` keys;
a string with a colon is split at the first colon; any other string is the
group name with no override. -/
def parseGroupItem : GroupItem → Option String × Option String
  | GroupItem.dict n a => (n, a)
  | GroupItem.str s =>
      if hasColon s then
        let p := splitOnceColon s
        (some p.1, some p.2)
      else (some s, none)

/-- Permissions contributed by one module at a given access level
(`access.py` lines 160-167): `read-write` yields both, `read-only` only the
read permission, `write-only` only the write permission, anything else
nothing. -/
def modulePerms (accessLevel module : String) : Finset String :=
  if accessLevel = "read-write" then {module ++ ":read", module ++ ":write"}
  else if accessLevel = "read-only" then {module ++ ":read"}
  else if accessLevel = "write-only" then {module ++ ":write"}
  else ∅

/-- Permissions the loop body of `get_user_permissions` adds for one group
item (`access.py` lines 131-167): nothing when the item names no configured
group; the single wildcard permission `*` when the group's `modules` field is
the string `"*"`; otherwise the per-module permissions at the effective
access level `access_override or group['access'] or
group.get('default_access', 'read-only')`, a non-list `modules` value being
wrapped into a one-element list. -/
def groupItemPerms (groups : List (String × Group)) (item : GroupItem) :
    Finset String :=
  match (parseGroupItem item).1 with
  | none => ∅
  | some gname =>
      match groups.lookup gname with
      | none => ∅
      | some g =>
          let accessLevel :=
            pyOrS (parseGroupItem item).2
              (pyOrS g.access (g.default_access.getD "read-only"))
          match g.modules.getD (Modules.list []) with
          | Modules.str s =>
              if s = "*" then {"*"}
              else modulePerms accessLevel s
          | Modules.list ms =>
              ms.foldl (fun acc m => acc ∪ modulePerms accessLevel m) ∅

/-- Embedding of `get_user_permissions(username, users, groups)`
(`access.py` lines 100-169).  The `users` and `groups` dicts are association
lists; the running Python set `permissions` is a `Finset String` accumulated
over the user's permission entries and their group items. -/
def get_user_permissions (username : String)
    (users : List (String × User)) (groups : List (String × Group)) :
    Finset String :=
  if users.isEmpty then {"*"}
  else
    match users.lookup username with
    | none => ∅
    | some user =>
        user.permissions.foldl
          (fun perms pe =>
            pe.groups.foldl
              (fun perms2 item => perms2 ∪ groupItemPerms groups item) perms)
          ∅

/-- The part of a permission string before the first `':'`
(`required_permission.split(':')[0]`, `access.py` line 205). -/
def beforeFirstColon (s : String) : String :=
  String.mk (s.data.takeWhile (fun c => c ≠ ':'))

/-- Embedding of `check_permission(required_permission)` (`access.py` lines
172-209).  The ambient process state read by the Python function — the
effective UID, the current username and the configurations loaded from disk —
is passed explicitly. -/
def check_permission (euid : Nat) (username : String)
    (users : List (String × User)) (groups : List (String × Group))
    (required : String) : Bool :=
  if euid = 0 then true
  else if users.isEmpty then true
  else
    let permissions := get_user_permissions username users groups
    if "*" ∈ permissions then true
    else if required ∈ permissions then true
    else if (beforeFirstColon required ++ ":*") ∈ permissions then true
    else false

/-- Claim-side description of the permissions one group membership item
yields, following the claim's wording: the referenced group's modules are
turned into permissions at the membership's access-level override when one is
given, else the group's own `access` (or `default_access`, defaulting to
`read-only`); a `modules` field that is the string `"*"` yields the single
wildcard permission. -/
def claimItemPerms (groups : List (String × Group)) (item : GroupItem) :
    Finset String :=
  match (parseGroupItem item).1 with
  | none => ∅
  | some gname =>
      match groups.lookup gname with
      | none => ∅
      | some g =>
          let level :=
            pyOrS (parseGroupItem item).2
              (pyOrS g.access (g.default_access.getD "read-only"))
          match g.modules.getD (Modules.list []) with
          | Modules.str s => if s = "*" then {"*"} else modulePerms level s
          | Modules.list ms =>
              (ms.map (modulePerms level)).foldr (· ∪ ·) ∅

/-- Claim-side description of `get_user_permissions` for a present user: the
union, over all of the user's permission entries and every group item listed
in them, of the permissions derived from the referenced group. -/
def claimUserPermissions (user : User) (groups : List (String × Group)) :
    Finset String :=
  (((user.permissions.map PermEntry.groups).flatten).map
      (claimItemPerms groups)).foldr (· ∪ ·) ∅

end MM.Access

namespace MM.Cfg

/-!  Embedding of `mikro_common/config.py`. -/

/-- The value of the `router` key of a parsed router YAML file: its `name`
key (`config.py` line 70) and the remaining connection fields, kept abstract
as a string dictionary. -/
structure RouterCfg where
  rname : Option String := none
  fields : List (String × String) := []
deriving DecidableEq, Repr

/-- One `*.yaml` file of `/etc/mikro-manager/routers.d`: its file name, its
owner UID (checked at `config.py` lines 59-63), and the value of the `router`
key of its parsed content — `none` when parsing failed, the document was
empty, or it had no `router` key (`config.py` lines 65-74). -/
structure RouterFile where
  fname : String
  owner : Nat := 0
  router : Option RouterCfg := none
deriving DecidableEq, Repr

/-- The observable state of `/etc/mikro-manager/routers.d`: whether the
directory exists, its owner UID, and its `*.yaml` files in the (arbitrary)
order the file system lists them. -/
structure RoutersFS where
  dirExists : Bool := true
  dirOwner : Nat := 0
  files : List RouterFile := []
deriving DecidableEq, Repr

/-- The exceptions `load_routers` raises. -/
inductive CfgError where
  | fileNotFound (msg : String)
  | permissionError (msg : String)
deriving DecidableEq, Repr

/-- Lexicographic order on code-point lists, as Python compares strings. -/
def lexLe : List Char → List Char → Bool
  | [], _ => true
  | _ :: _, [] => false
  | c :: cs, d :: ds =>
      if c.toNat < d.toNat then true
      else if c.toNat = d.toNat then lexLe cs ds
      else false

/-- String order used by `sorted` on paths: code-point lexicographic. -/
def strLe (a b : String) : Bool :=
  lexLe a.data b.data

/-- Insert one file into the sorted file list, before the first file whose
name is not smaller (Python's `sorted` is stable and file names in one
directory are distinct). -/
def insertSorted (f : RouterFile) : List RouterFile → List RouterFile
  | [] => [f]
  | g :: gs =>
      if strLe f.fname g.fname then f :: g :: gs else g :: insertSorted f gs

/-- The files in alphabetical name order (`sorted(Path(...).glob("*.yaml"))`,
`config.py` line 52). -/
def sortFiles (fs : List RouterFile) : List RouterFile :=
  fs.foldr insertSorted []

/-- Assignment `routers[name] = router` on a Python dict kept as an
association list: an existing key keeps its position and gets the new value,
a new key is appended. -/
def pyInsert (d : List (String × RouterCfg)) (k : String) (v : RouterCfg) :
    List (String × RouterCfg) :=
  if (d.find? (fun kv => kv.1 = k)).isSome then
    d.map (fun kv => if kv.1 = k then (k, v) else kv)
  else d ++ [(k, v)]

/-- Loop body of `load_routers` (`config.py` lines 54-74): skip `README.md`,
skip files not owned by root when not running as root, and record the file's
router under its name when the parsed content has a `router` mapping with a
truthy `name`. -/
def loadStep (euid : Nat) (acc : List (String × RouterCfg))
    (f : RouterFile) : List (String × RouterCfg) :=
  if f.fname = "README.md" then acc
  else if euid ≠ 0 ∧ f.owner ≠ 0 then acc
  else
    match f.router with
    | none => acc
    | some r =>
        match r.rname with
        | none => acc
        | some n => if n = "" then acc else pyInsert acc n r

/-- Embedding of `load_routers()` (`config.py` lines 21-79).  The fixed
directory `/etc/mikro-manager/routers.d` is passed as an explicit file-system
state, and the effective UID explicitly. -/
def load_routers (euid : Nat) (fs : RoutersFS) :
    Except CfgError (List (String × RouterCfg)) :=
  if ¬ fs.dirExists then
    Except.error (CfgError.fileNotFound
      "Router directory not found: /etc/mikro-manager/routers.d")
  else if euid ≠ 0 ∧ fs.dirOwner ≠ 0 then
    Except.error (CfgError.permissionError
      "Security error: /etc/mikro-manager/routers.d must be owned by root")
  else
    let routers := (sortFiles fs.files).foldl (loadStep euid) []
    if routers.isEmpty then
      Except.error (CfgError.fileNotFound
        "No valid router configurations found in /etc/mikro-manager/routers.d")
    else Except.ok routers

/-- Embedding of `get_router_config(routers, router_name)` (`config.py`
lines 82-106).  `router_name` is `none` for an absent argument; the Python
`if router_name:` also treats the empty string as absent. -/
def get_router_config (routers : List (String × RouterCfg))
    (routerName : Option String) : Except String RouterCfg :=
  if routers.isEmpty then Except.error "No routers configured"
  else
    match routerName with
    | some n =>
        if n ≠ "" then
          match routers.lookup n with
          | some r => Except.ok r
          | none =>
              Except.error ("Router '" ++ n ++ "' not found. Available: " ++
                String.intercalate ", " (routers.map (fun kv => kv.1)))
        else
          match routers.head? with
          | some kv => Except.ok kv.2
          | none => Except.error "No routers configured"
    | none =>
        match routers.head? with
        | some kv => Except.ok kv.2
        | none => Except.error "No routers configured"

/-- Claim-side validity of one configuration file: it is kept exactly when
its parsed content contains a `router` mapping with a non-empty `name` (and
it is not the `README.md` the loop skips), and it contributes that router
under that name. -/
def validRouter (f : RouterFile) : Option (String × RouterCfg) :=
  match f.router with
  | some r =>
      match r.rname with
      | some n => if n ≠ "" ∧ f.fname ≠ "README.md" then some (n, r) else none
      | none => none
  | none => none

/-- Claim-side description of the router dictionary `load_routers` builds:
over the `*.yaml` files in sorted (alphabetical) filename order, keep the
files whose parsed content contains a `router` mapping with a non-empty
`name`, a later file's router overriding an earlier one with the same name. -/
def claimRouters (fs : RoutersFS) : List (String × RouterCfg) :=
  ((sortFiles fs.files).filterMap validRouter).foldl
    (fun acc nr => pyInsert acc nr.1 nr.2) []

end MM.Cfg

namespace MM.Res

/-!  Embedding of `mikro_common/resource.py`.

A resource entry as `list_entries` returns it is a flat dictionary; RouterOS
API values are modelled as strings.  The router behind the API is modelled as
the list of its entries plus a counter from which it mints the `.id` of a
newly added entry, and every mutation the manager sends to the router is also
recorded in an operation trace. -/

/-- A resource entry: a flat string dictionary. -/
abbrev Rec := List (String × String)

/-- The router state behind one resource path: the stored entries in listing
order, and the counter for fresh `.id` values. -/
structure St where
  nextId : Nat := 0
  entries : List Rec := []
deriving DecidableEq, Repr

/-- A mutation sent to the router. -/
inductive Op where
  | add (entry : Rec)
  | update (id : String) (entry : Rec)
deriving DecidableEq, Repr

/-- The record a mutation applies. -/
def Op.entry : Op → Rec
  | Op.add e => e
  | Op.update _ e => e

/-- Whether a mutation is an add. -/
def Op.isAdd : Op → Bool
  | Op.add _ => true
  | Op.update _ _ => false

/-- Whether a mutation is an update. -/
def Op.isUpdate : Op → Bool
  | Op.add _ => false
  | Op.update _ _ => true

/-- Embedding of `ResourceManager.list_entries` (`resource.py` lines 30-43):
the router's entries, each copied as a plain dictionary. -/
def list_entries (st : St) : List Rec := st.entries

/-- Embedding of `ResourceManager.find_entry(**kwargs)` (`resource.py` lines
61-76): the first listed entry whose value at every given key equals the
given value (`entry.get(k) == v`). -/
def find_entry (kvs : List (String × String)) (st : St) : Option Rec :=
  (list_entries st).find?
    (fun e => kvs.all (fun kv => dget e kv.1 = some kv.2))

/-- Embedding of `ResourceManager.add_entry(**kwargs)` (`resource.py` lines
78-90) together with the router's side of `path.add`: the router appends the
entry, stamped with a fresh `.id`. -/
def add_entry (r : Rec) (st : St) : St :=
  { nextId := st.nextId + 1,
    entries := st.entries ++ [dset r ".id" ("*" ++ toString st.nextId)] }

/-- Embedding of `ResourceManager.update_entry(entry_id, **kwargs)`
(`resource.py` lines 92-105) together with the router's side of
`path.update`: every stored entry whose `.id` equals the given id gets the
given fields assigned. -/
def update_entry (id : String) (kvs : Rec) (st : St) : St :=
  { st with
    entries :=
      st.entries.map
        (fun e =>
          if dget e ".id" = some id then
            kvs.foldl (fun acc kv => dset acc kv.1 kv.2) e
          else e) }

/-- The counters `import_entries` returns. -/
structure Stats where
  added : Nat := 0
  updated : Nat := 0
  skipped : Nat := 0
deriving DecidableEq, Repr

/-- The merge loop of `ResourceManager.import_entries` (`resource.py` lines
244-268) over the already-parsed records.  Each record first loses its `.id`
field; a record with a missing or falsy `key_field` value is skipped; a
record matching an existing entry is updated by that entry's `.id` when
`overwrite` is set and skipped otherwise; a record matching nothing is added.
Reading `existing['.id']` of an entry without an `.id` key raises `KeyError`,
modelled as the `Except.error` case.  The result carries the final router
state, the counters, and the trace of mutations in order. -/
def importGo (ow : Bool) (kf : String) :
    List Rec → St → Except String (St × Stats × List Op)
  | [], st => Except.ok (st, {}, [])
  | r :: rs, st =>
      let r' := dpop r ".id"
      match dget r' kf with
      | none =>
          (importGo ow kf rs st).map
            (fun o => (o.1, { o.2.1 with skipped := o.2.1.skipped + 1 }, o.2.2))
      | some v =>
          if v = "" then
            (importGo ow kf rs st).map
              (fun o => (o.1, { o.2.1 with skipped := o.2.1.skipped + 1 }, o.2.2))
          else
            match find_entry [(kf, v)] st with
            | some existing =>
                if ow then
                  match dget existing ".id" with
                  | none => Except.error "KeyError: '.id'"
                  | some eid =>
                      (importGo ow kf rs (update_entry eid r' st)).map
                        (fun o =>
                          (o.1, { o.2.1 with updated := o.2.1.updated + 1 },
                            Op.update eid r' :: o.2.2))
                else
                  (importGo ow kf rs st).map
                    (fun o =>
                      (o.1, { o.2.1 with skipped := o.2.1.skipped + 1 }, o.2.2))
            | none =>
                (importGo ow kf rs (add_entry r' st)).map
                  (fun o =>
                    (o.1, { o.2.1 with added := o.2.1.added + 1 },
                      Op.add r' :: o.2.2))

/-- Embedding of `ResourceManager.import_entries(data, format, overwrite,
key_field)` (`resource.py` lines 217-268).  JSON/CSV string primitives are
out-of-scope collaborators, so the data argument stands for the list of
records its parse yields; a format other than `json` or `csv` raises
`ValueError` before anything is parsed or applied. -/
def import_entries (fmt : String) (records : List Rec) (ow : Bool)
    (kf : String) (st : St) : Except String (St × Stats × List Op) :=
  if fmt = "json" then importGo ow kf records st
  else if fmt = "csv" then importGo ow kf records st
  else Except.error ("Unsupported format: " ++ fmt)

/-- JSON string escaping as `json.dumps` performs it: backslash and quote are
escaped, control characters become `\uXXXX` sequences. -/
def jsonEscChar (c : Char) : String :=
  if c = '\\' then "\\\\"
  else if c = '"' then "\\\""
  else if c = '\n' then "\\n"
  else if c = '\t' then "\\t"
  else if c = '\r' then "\\r"
  else if c.toNat < 32 then
    "\\u" ++ (Nat.toDigits 16 c.toNat).asString.leftpad 4 '0'
  else String.mk [c]

/-- A JSON string literal. -/
def jsonStr (s : String) : String :=
  "\"" ++ String.join (s.data.map jsonEscChar) ++ "\""

/-- One entry as `json.dumps(entries, indent=2)` renders it: an object over
the dictionary's keys in order, indented two levels deep. -/
def jsonObj (e : Rec) : String :=
  match e with
  | [] => "\x7b\x7d"
  | _ =>
      "\x7b\n    " ++
        String.intercalate ",\n    "
          (e.map (fun kv => jsonStr kv.1 ++ ": " ++ jsonStr kv.2)) ++
        "\n  \x7d"

/-- The serialization `json.dumps(entries, indent=2)` of an entry list
(`resource.py` lines 200-202). -/
def jsonDumps (entries : List Rec) : String :=
  match entries with
  | [] => "[]"
  | _ =>
      "[\n  " ++ String.intercalate ",\n  " (entries.map jsonObj) ++ "\n]"

/-- One CSV cell under the csv module's minimal quoting: a cell containing
the delimiter, the quote character or a line-terminator character is wrapped
in quotes with inner quotes doubled. -/
def csvCell (s : String) : String :=
  if s.data.any (fun c => c = ',' ∨ c = '"' ∨ c = '\n' ∨ c = '\r') then
    "\"" ++ String.join (s.data.map
      (fun c => if c = '"' then "\"\"" else String.mk [c])) ++ "\""
  else s

/-- One CSV row (cells joined by commas; the writer terminates rows with
CRLF, appended by the caller). -/
def csvRow (cells : List String) : String :=
  String.intercalate "," (cells.map csvCell)

/-- The data rows `csv.DictWriter.writerows(entries)` produces for the given
field names: a row per entry with the entry's value at each field name (an
absent field yields the empty rest-value), and a `ValueError` when an entry
has a key outside the field names. -/
def csvRows (fieldnames : List String) : List Rec → Except String String
  | [] => Except.ok ""
  | r :: rs =>
      if r.any (fun kv => ¬ fieldnames.contains kv.1) then
        Except.error "dict contains fields not in fieldnames"
      else
        (csvRows fieldnames rs).map
          (fun rest =>
            csvRow (fieldnames.map (fun f => dgetD r f "")) ++ "\r\n" ++ rest)

/-- The CSV branch of `export_entries` (`resource.py` lines 204-212): the
empty string when there are no entries, otherwise a header row over the first
entry's keys followed by one row per entry. -/
def csvDump : List Rec → Except String String
  | [] => Except.ok ""
  | e :: es =>
      (csvRows (e.map (fun kv => kv.1)) (e :: es)).map
        (fun body => csvRow (e.map (fun kv => kv.1)) ++ "\r\n" ++ body)

/-- Embedding of `ResourceManager.export_entries(format)` (`resource.py`
lines 188-215). -/
def export_entries (fmt : String) (st : St) : Except String String :=
  if fmt = "json" then Except.ok (jsonDumps (list_entries st))
  else if fmt = "csv" then csvDump (list_entries st)
  else Except.error ("Unsupported format: " ++ fmt)

/-!  Search (`ResourceManager.search_entries`, `resource.py` lines 158-186).

The entries it scans may carry non-string values (the DNS listing stores a
boolean under `disabled`), and the code only pattern-matches values that are
strings (`isinstance(value, str)`), so search entries carry tagged values. -/

/-- A value of a listed entry: a string or a boolean. -/
inductive SVal where
  | s (v : String)
  | b (v : Bool)
deriving DecidableEq, Repr

/-- A listed entry with tagged values. -/
abbrev SRec := List (String × SVal)

/-- Python `entry.get(field, '')` on a tagged entry. -/
def sget : SRec → String → SVal
  | [], _ => SVal.s ""
  | kv :: rest, k => if kv.1 = k then kv.2 else sget rest k

/-- One bracket-range item of an `fnmatch` character class. -/
def rangeHits (lo hi c : Char) : Bool :=
  lo ≤ c ∧ c ≤ hi

/-- Whether a character is listed in the body of an `fnmatch` character
class, `a-b` spans denoting ranges. -/
def classHits : List Char → Char → Bool
  | [], _ => false
  | lo :: '-' :: hi :: rest, c => rangeHits lo hi c ∨ classHits rest c
  | x :: rest, c => x = c ∨ classHits rest c

/-- Split a character list at the first `]`: the part before it and the part
after it. -/
def findClose : List Char → Option (List Char × List Char)
  | [] => none
  | ']' :: rest => some ([], rest)
  | c :: cs => (findClose cs).map (fun p => (c :: p.1, p.2))

/-- Split an `fnmatch` character class at its closing bracket: the class body
and the rest of the pattern.  Mirroring `fnmatch.translate`, a `]` in first
position (after an optional `!`) is part of the body and the class closes at
the first `]` after that; `none` when the class never closes, in which case
the opening `[` matches literally. -/
def splitClass (l : List Char) : Option (List Char × List Char) :=
  match l with
  | '!' :: ']' :: rest =>
      (findClose rest).map (fun p => ('!' :: ']' :: p.1, p.2))
  | ']' :: rest => (findClose rest).map (fun p => (']' :: p.1, p.2))
  | rest => findClose rest

/-- The body of a character class, with its leading `!`, handed to the
matcher: negation plus the listed characters. -/
def classMatch (body : List Char) (c : Char) : Bool :=
  match body with
  | '!' :: items => ¬ classHits items c
  | items => classHits items c

/-- Core of `fnmatch.fnmatch(name, pattern)` over character lists: `*`
matches any run of characters, `?` any single character, `[...]` a character
class (`[!...]` negated, an unterminated `[` literal), anything else itself;
the whole name must be consumed. -/
def fnmatchCore : List Char → List Char → Bool
  | [], s => s.isEmpty
  | '*' :: ps, s =>
      fnmatchCore ps s ||
        (match s with
         | [] => false
         | _ :: s' => fnmatchCore ('*' :: ps) s')
  | '?' :: ps, s =>
      (match s with
       | [] => false
       | _ :: s' => fnmatchCore ps s')
  | '[' :: ps, s =>
      (match splitClass ps with
       | some (body, rest) =>
           match s with
           | [] => false
           | c :: s' => classMatch body c && fnmatchCore rest s'
       | none =>
           match s with
           | [] => false
           | c :: s' => '[' = c && fnmatchCore ps s')
  | p :: ps, s =>
      (match s with
       | [] => false
       | c :: s' => p = c && fnmatchCore ps s')
  termination_by p s => (s.length, p.length)
  decreasing_by
    all_goals simp_wf
    all_goals
      first
      | exact Prod.Lex.right _ (by simp)
      | exact Prod.Lex.left _ _ (by simp)

/-- The `fnmatch.fnmatch` wildcard match used by `search_entries` (on POSIX
`os.path.normcase` is the identity, so no case folding happens). -/
def fnmatch (name pattern : String) : Bool :=
  fnmatchCore pattern.data name.data

/-- Whether one searched field of an entry matches the pattern
(`resource.py` lines 180-182): the field's value, defaulting to the empty
string, is a string and `fnmatch`-matches the pattern. -/
def fieldMatches (pattern : String) (e : SRec) (f : String) : Bool :=
  match sget e f with
  | SVal.s v => fnmatch v pattern
  | SVal.b _ => false

/-- The scan loop of `search_entries` (`resource.py` lines 178-184): an entry
is appended once as soon as one searched field matches (the inner loop's
`break`), and the scan continues with the next entry. -/
def searchLoop (pattern : String) (fields : List String) :
    List SRec → List SRec
  | [] => []
  | e :: es =>
      if fields.any (fieldMatches pattern e) then
        e :: searchLoop pattern fields es
      else searchLoop pattern fields es

/-- Embedding of `ResourceManager.search_entries(pattern, fields)`
(`resource.py` lines 158-186) over the already-listed entries: an absent or
empty field list defaults to the string-valued keys of the first entry. -/
def search_entries (pattern : String) (fields : Option (List String))
    (entries : List SRec) : List SRec :=
  let fs :=
    match fields with
    | none => []
    | some l => l
  let fs :=
    if fs.isEmpty then
      match entries with
      | [] => []
      | e :: _ =>
          (e.filter (fun kv => match kv.2 with
            | SVal.s _ => true
            | SVal.b _ => false)).map (fun kv => kv.1)
    else fs
  searchLoop pattern fs entries

end MM.Res

namespace MM.Dns

/-!  Embedding of `mikro_dns/dns.py` (`DNSManager`). -/

open MM.Res

/-- A raw `/ip/dns/static` entry as the router returns it: a flat string
dictionary (an absent key is an absent pair). -/
abbrev RawRec := List (String × String)

/-- Python `entry.get(k) or default` (`dns.py` lines 42-57): an absent key
and an empty value both yield the default. -/
def rawGetOr (e : RawRec) (k d : String) : String :=
  match dget e k with
  | some v => if v = "" then d else v
  | none => d

/-- A DNS entry as `DNSManager.list_entries` shapes it (`dns.py` lines
40-59). -/
structure DnsEntry where
  id : Option String := none
  name : String := ""
  rtype : String := "A"
  address : String := ""
  cname : String := ""
  mxPreference : String := ""
  mxExchange : String := ""
  text : String := ""
  ns : String := ""
  srvPriority : String := ""
  srvWeight : String := ""
  srvPort : String := ""
  srvTarget : String := ""
  forwardTo : String := ""
  regexp : String := ""
  ttl : String := "1d"
  comment : String := ""
  disabled : Bool := false
deriving DecidableEq, Repr

/-- Embedding of `DNSManager.list_entries` (`dns.py` lines 29-61): each raw
entry normalised field by field. -/
def dnsListEntries (raws : List RawRec) : List DnsEntry :=
  raws.map (fun e =>
    { id := dget e ".id"
      name := rawGetOr e "name" ""
      rtype := rawGetOr e "type" "A"
      address := rawGetOr e "address" ""
      cname := rawGetOr e "cname" ""
      mxPreference := rawGetOr e "mx-preference" ""
      mxExchange := rawGetOr e "mx-exchange" ""
      text := rawGetOr e "text" ""
      ns := rawGetOr e "ns" ""
      srvPriority := rawGetOr e "srv-priority" ""
      srvWeight := rawGetOr e "srv-weight" ""
      srvPort := rawGetOr e "srv-port" ""
      srvTarget := rawGetOr e "srv-target" ""
      forwardTo := rawGetOr e "forward-to" ""
      regexp := rawGetOr e "regexp" ""
      ttl := rawGetOr e "ttl" "1d"
      comment := rawGetOr e "comment" ""
      disabled := dgetD e "disabled" "false" = "true" })

/-- Embedding of `DNSManager.find_entry(name)` (`dns.py` lines 63-77): the
first listed entry with the given name. -/
def dnsFindEntry (name : String) (raws : List RawRec) : Option DnsEntry :=
  (dnsListEntries raws).find? (fun e => e.name = name)

/-- The arguments of `DNSManager.add_entry` with their Python defaults
(`dns.py` lines 79-84). -/
structure AddArgs where
  name : String
  record_type : String := "A"
  address : String := ""
  cname : String := ""
  mx_preference : String := ""
  mx_exchange : String := ""
  text : String := ""
  ns : String := ""
  srv_priority : String := ""
  srv_weight : String := ""
  srv_port : String := ""
  srv_target : String := ""
  forward_to : String := ""
  regexp : String := ""
  ttl : String := "1d"
  comment : String := ""
  disabled : Bool := false
deriving DecidableEq, Repr

/-- Embedding of `DNSManager.add_entry` (`dns.py` lines 79-181) up to the
router call: either the `ValueError` message it raises, or the parameter
dictionary of the single `path.add` it issues.  No add is issued — and hence
the router's entry set is unchanged — in the error case, since the existence
check and every type-specific validation precede `path.add`. -/
def dnsAddEntry (a : AddArgs) (raws : List RawRec) :
    Except String (List (String × String)) :=
  match dnsFindEntry a.name raws with
  | some _ =>
      Except.error
        ("DNS entry '" ++ a.name ++ "' already exists. Use update to modify it.")
  | none =>
      let params := [("name", a.name), ("type", a.record_type), ("ttl", a.ttl)]
      let typed : Except String (List (String × String)) :=
        if a.record_type = "A" ∨ a.record_type = "AAAA" then
          if a.address = "" then
            Except.error (a.record_type ++ " record requires an address")
          else Except.ok (params ++ [("address", a.address)])
        else if a.record_type = "CNAME" then
          if a.cname = "" then
            Except.error "CNAME record requires a cname target"
          else Except.ok (params ++ [("cname", a.cname)])
        else if a.record_type = "MX" then
          if a.mx_exchange = "" then
            Except.error "MX record requires mx-exchange"
          else
            Except.ok (params ++ [("mx-exchange", a.mx_exchange)] ++
              (if a.mx_preference ≠ "" then
                [("mx-preference", a.mx_preference)] else []))
        else if a.record_type = "TXT" then
          if a.text = "" then
            Except.error "TXT record requires text content"
          else Except.ok (params ++ [("text", a.text)])
        else if a.record_type = "NS" then
          if a.ns = "" then
            Except.error "NS record requires a name server"
          else Except.ok (params ++ [("ns", a.ns)])
        else if a.record_type = "SRV" then
          if a.srv_target = "" then
            Except.error "SRV record requires a target"
          else
            Except.ok (params ++ [("srv-target", a.srv_target)] ++
              (if a.srv_priority ≠ "" then
                [("srv-priority", a.srv_priority)] else []) ++
              (if a.srv_weight ≠ "" then
                [("srv-weight", a.srv_weight)] else []) ++
              (if a.srv_port ≠ "" then [("srv-port", a.srv_port)] else []))
        else if a.record_type = "FWD" then
          if a.forward_to = "" then
            Except.error "FWD record requires forward-to server"
          else Except.ok (params ++ [("forward-to", a.forward_to)])
        else if a.record_type = "REGEXP" then
          if a.regexp = "" then
            Except.error "REGEXP record requires a regular expression"
          else Except.ok (params ++ [("regexp", a.regexp)])
        else Except.ok params
      typed.map (fun ps =>
        (ps ++ (if a.comment ≠ "" then [("comment", a.comment)] else []) ++
          (if a.disabled then [("disabled", "yes")] else [])))

/-- A listed DNS entry as the Python dictionary `search_entries` scans, in
the key order of `dns.py` lines 40-59 (`disabled` carries a boolean). -/
def DnsEntry.toDict (e : DnsEntry) : SRec :=
  [("id", SVal.s (e.id.getD "")),
   ("name", SVal.s e.name),
   ("type", SVal.s e.rtype),
   ("address", SVal.s e.address),
   ("cname", SVal.s e.cname),
   ("mx-preference", SVal.s e.mxPreference),
   ("mx-exchange", SVal.s e.mxExchange),
   ("text", SVal.s e.text),
   ("ns", SVal.s e.ns),
   ("srv-priority", SVal.s e.srvPriority),
   ("srv-weight", SVal.s e.srvWeight),
   ("srv-port", SVal.s e.srvPort),
   ("srv-target", SVal.s e.srvTarget),
   ("forward-to", SVal.s e.forwardTo),
   ("regexp", SVal.s e.regexp),
   ("ttl", SVal.s e.ttl),
   ("comment", SVal.s e.comment),
   ("disabled", SVal.b e.disabled)]

/-- Embedding of `DNSManager.search_entries(pattern)` (`dns.py` lines
254-265): the generic search restricted to the `name` and `address` fields,
over the listed DNS entries. -/
def dnsSearchEntries (pattern : String) (raws : List RawRec) : List SRec :=
  search_entries pattern (some ["name", "address"])
    ((dnsListEntries raws).map DnsEntry.toDict)

/-- Claim-side condition on `add_entry` arguments: the required
type-specific field for the record type is empty. -/
def requiredFieldMissing (a : AddArgs) : Prop :=
  ((a.record_type = "A" ∨ a.record_type = "AAAA") ∧ a.address = "") ∨
    (a.record_type = "CNAME" ∧ a.cname = "") ∨
    (a.record_type = "MX" ∧ a.mx_exchange = "") ∨
    (a.record_type = "TXT" ∧ a.text = "") ∨
    (a.record_type = "NS" ∧ a.ns = "") ∨
    (a.record_type = "SRV" ∧ a.srv_target = "") ∨
    (a.record_type = "FWD" ∧ a.forward_to = "") ∨
    (a.record_type = "REGEXP" ∧ a.regexp = "")

instance (a : AddArgs) : Decidable (requiredFieldMissing a) := by
  unfold requiredFieldMissing
  infer_instance

end MM.Dns

namespace MM.Cli

/-!  Embedding of the error-handling structure of `ResourceCLI.run`
(`mikro_common/cli.py` lines 259-310) and `ResourceCLI.check_permissions`
(lines 207-222).

The effects of the individual phases — the permission check, the router
configuration load, the connection and the command execution — are passed in
as an environment recording what each phase does (returns, or raises which
exception); `run` composes them through its `try/except` structure.  Python
exception classes are reduced to the classification `run` actually branches
on. -/

open MM.Cfg

/-- The exceptions the modelled phases can raise, by the class membership the
handlers test: `AccessDeniedError`, `FileNotFoundError`, `ValueError`,
`PermissionError`, `TypeError` and a generic further `Exception` subclass are
all `Exception`s; `SystemExit` and `KeyboardInterrupt` derive only
`BaseException`. -/
inductive Exc where
  | accessDenied
  | fileNotFound
  | valueError
  | permissionError
  | typeError
  | otherException
  | systemExit
  | keyboardInterrupt
deriving DecidableEq, Repr

/-- Whether an exception is an `Exception` subclass (caught by
`except Exception`). -/
def Exc.isException : Exc → Bool
  | Exc.systemExit => false
  | Exc.keyboardInterrupt => false
  | _ => true

/-- What each phase of a `run` invocation does.  `permCheck` is the behaviour
of the `require_permission` call, `loadRouters` of the `load_routers` call
(its result feeding `get_router_config` directly), `routerArg` the `--router`
argument, and `connectAndRun` the behaviour of the whole
`with MikroTikClient(...)` block body (connecting and executing the
command). -/
structure RunEnv where
  permCheck : Option Exc := none
  loadRouters : Except Exc (List (String × RouterCfg)) := Except.ok []
  routerArg : Option String := none
  connectAndRun : Option Exc := none
deriving Repr

/-- How a `run` invocation ends. -/
inductive RunOutcome where
  | exitErr (stderr : String)
  | uncaught (e : Exc)
  | finished
deriving DecidableEq, Repr

/-- Embedding of `ResourceCLI.run` after argument parsing (`cli.py` lines
278-310), with `check_permissions` (lines 207-222) inlined: the permission
check catches only `AccessDeniedError`; the `load_routers` call is wrapped in
a `try` catching only `FileNotFoundError`; `get_router_config` runs outside
any `try`; the connect-and-execute block catches every `Exception`.  A caught
failure prints to stderr and exits with status 1 (`RunOutcome.exitErr`); any
other exception propagates out of `run` (`RunOutcome.uncaught`). -/
def run (env : RunEnv) : RunOutcome :=
  match env.permCheck with
  | some e =>
      if e = Exc.accessDenied then RunOutcome.exitErr "Permission denied: ..."
      else RunOutcome.uncaught e
  | none =>
      match env.loadRouters with
      | Except.error e =>
          if e = Exc.fileNotFound then RunOutcome.exitErr "Error: ..."
          else RunOutcome.uncaught e
      | Except.ok routers =>
          match get_router_config routers env.routerArg with
          | Except.error _ => RunOutcome.uncaught Exc.valueError
          | Except.ok _ =>
              match env.connectAndRun with
              | some e =>
                  if e.isException then RunOutcome.exitErr "Error: ..."
                  else RunOutcome.uncaught e
              | none => RunOutcome.finished

/-- Whether an `Except` holds an error. -/
def isErr {ε α : Type} : Except ε α → Bool
  | Except.error _ => true
  | Except.ok _ => false

/-- Whether any modelled phase of a `run` invocation fails: the permission
check, the configuration load, the router lookup or the connect-and-execute
block raises. -/
def RunEnv.someFailure (env : RunEnv) : Bool :=
  env.permCheck.isSome ||
    isErr env.loadRouters ||
    (match env.loadRouters with
     | Except.ok rs => isErr (get_router_config rs env.routerArg)
     | Except.error _ => false) ||
    env.connectAndRun.isSome

end MM.Cli

namespace MM

/-!  Helper lemmas. -/

theorem foldl_union_eq {α : Type} (f : α → Finset String) :
    ∀ (l : List α) (acc : Finset String),
      l.foldl (fun a m => a ∪ f m) acc = acc ∪ (l.map f).foldr (· ∪ ·) ∅
  | [], acc => by simp
  | m :: ms, acc => by
      rw [List.foldl_cons, foldl_union_eq f ms (acc ∪ f m), List.map_cons,
        List.foldr_cons, Finset.union_assoc]

theorem foldr_union_append (u v : List (Finset String)) :
    (u ++ v).foldr (· ∪ ·) ∅ =
      u.foldr (· ∪ ·) ∅ ∪ v.foldr (· ∪ ·) ∅ := by
  induction u with
  | nil => simp
  | cons x xs ih => simp [ih, Finset.union_assoc]

theorem dget_dpop_ne (e : List (String × String)) (k k' : String)
    (h : k ≠ k') : dget (dpop e k') k = dget e k := by
  induction e with
  | nil => rfl
  | cons kv rest ih =>
      by_cases hk' : kv.1 = k'
      · have hkk : kv.1 ≠ k := fun hc => h (hc ▸ hk')
        rw [show dpop (kv :: rest) k' = dpop rest k' by
              simp [dpop, List.filter_cons, hk'],
          ih]
        simp [dget, hkk]
      · rw [show dpop (kv :: rest) k' = kv :: dpop rest k' by
              simp [dpop, List.filter_cons, hk']]
        simp [dget, ih]

theorem dget_dpop_self (e : List (String × String)) (k : String) :
    dget (dpop e k) k = none := by
  induction e with
  | nil => rfl
  | cons kv rest ih =>
      by_cases hk : kv.1 = k
      · simpa [dpop, List.filter_cons, hk] using ih
      · simpa [dpop, dget, List.filter_cons, hk] using ih

end MM

namespace MM.Access

theorem groupItemPerms_eq_claimItemPerms (groups : List (String × Group))
    (item : GroupItem) : groupItemPerms groups item = claimItemPerms groups item := by
  unfold groupItemPerms claimItemPerms
  cases (parseGroupItem item).1 with
  | none => rfl
  | some gname =>
      dsimp only
      cases groups.lookup gname with
      | none => rfl
      | some g =>
          dsimp only
          cases g.modules.getD (Modules.list []) with
          | str s => rfl
          | list ms => simpa using MM.foldl_union_eq _ ms ∅

theorem nested_foldl_eq (g : GroupItem → Finset String) :
    ∀ (pes : List PermEntry) (acc : Finset String),
      pes.foldl
          (fun perms pe =>
            pe.groups.foldl (fun p2 i => p2 ∪ g i) perms) acc =
        acc ∪ (((pes.map PermEntry.groups).flatten).map g).foldr (· ∪ ·) ∅
  | [], acc => by simp
  | pe :: rest, acc => by
      rw [List.foldl_cons, nested_foldl_eq g rest _,
        MM.foldl_union_eq g pe.groups acc, List.map_cons, List.flatten_cons,
        List.map_append, MM.foldr_union_append, Finset.union_assoc]

theorem get_user_permissions_of_lookup (username : String)
    (users : List (String × User)) (groups : List (String × Group))
    (user : User) (h : users.lookup username = some user) :
    get_user_permissions username users groups =
      user.permissions.foldl
        (fun perms pe =>
          pe.groups.foldl
            (fun perms2 item => perms2 ∪ groupItemPerms groups item) perms)
        ∅ := by
  have hne : users.isEmpty = false := by
    cases users with
    | nil => simp [List.lookup] at h
    | cons kv rest => rfl
  unfold get_user_permissions
  rw [hne, h]
  simp

theorem takeWhile_no_colon (l t : List Char) (h : ∀ c ∈ l, c ≠ ':') :
    (l ++ ':' :: t).takeWhile (fun c => c ≠ ':') = l := by
  induction l with
  | nil => simp
  | cons c cs ih =>
      have hc : c ≠ ':' := h c (List.mem_cons_self c cs)
      have hcs : ∀ x ∈ cs, x ≠ ':' :=
        fun x hx => h x (List.mem_cons_of_mem c hx)
      rw [List.cons_append, List.takeWhile_cons, if_pos (decide_eq_true hc),
        ih hcs]

theorem beforeFirstColon_append (m a : String) (hm : hasColon m = false) :
    beforeFirstColon (m ++ ":" ++ a) = m := by
  have hl : ∀ c ∈ m.data, c ≠ ':' := by
    intro c hc he
    have : m.data.any (fun c => c = ':') = true :=
      List.any_eq_true.mpr ⟨c, hc, by simp [he]⟩
    rw [hasColon] at hm
    rw [hm] at this
    exact Bool.false_ne_true this
  unfold beforeFirstColon
  have hdata : (m ++ ":" ++ a).data = m.data ++ ':' :: a.data := by
    rw [String.data_append, String.data_append]
    simp [String.data]
  rw [hdata, takeWhile_no_colon _ _ hl]

end MM.Access

namespace MM

/-- C1: for a username present in the users mapping, `get_user_permissions`
returns the union, over all of the user's permission entries and over every
group item listed in them, of the permissions derived from the referenced
group's modules, with the membership's access-level override replacing the
group's own access (or `default_access`, defaulting to `read-only`), each
module contributing read/write permissions according to the access level, and
a group whose modules field is the string `"*"` contributing the single
wildcard permission. -/
theorem c1_permission_resolution_union (username : String)
    (users : List (String × Access.User)) (groups : List (String × Access.Group))
    (user : Access.User) (h : users.lookup username = some user) :
    Access.get_user_permissions username users groups =
      Access.claimUserPermissions user groups := by
  rw [Access.get_user_permissions_of_lookup username users groups user h,
    Access.nested_foldl_eq (Access.groupItemPerms groups) user.permissions ∅,
    Finset.empty_union, Access.claimUserPermissions,
    show Access.groupItemPerms groups = Access.claimItemPerms groups from
      funext (Access.groupItemPerms_eq_claimItemPerms groups)]

/-- Witness for C1 at a concrete configuration: the user `alice` belongs to
`dns-admin` read-write (yielding `dns:read` and `dns:write`), to `monitor`
with a read-only string override, and to a wildcard-modules group. -/
theorem c1_permission_resolution_union_witness :
    Access.get_user_permissions "alice"
        [("alice",
          { permissions :=
              [{ groups :=
                  [Access.GroupItem.str "dns-admin",
                   Access.GroupItem.str "monitor:read-only",
                   Access.GroupItem.dict (some "super") none] }] })]
        [("dns-admin",
          { access := some "read-write",
            modules := some (Access.Modules.list ["dns"]) }),
         ("monitor",
          { access := some "read-write",
            modules := some (Access.Modules.list ["system"]) }),
         ("super", { modules := some (Access.Modules.str "*") })] =
      Access.claimUserPermissions
        { permissions :=
            [{ groups :=
                [Access.GroupItem.str "dns-admin",
                 Access.GroupItem.str "monitor:read-only",
                 Access.GroupItem.dict (some "super") none] }] }
        [("dns-admin",
          { access := some "read-write",
            modules := some (Access.Modules.list ["dns"]) }),
         ("monitor",
          { access := some "read-write",
            modules := some (Access.Modules.list ["system"]) }),
         ("super", { modules := some (Access.Modules.str "*") })] :=
  c1_permission_resolution_union "alice" _ _ _ (by decide)

/-- C6: for a non-root user with a non-empty users configuration,
`check_permission` on a permission of the form `module:action` returns `True`
exactly when the user's resolved permission set contains the wildcard `*`,
the exact required permission, or `module:*` where `module` is the part of
the required permission before the first colon. -/
theorem c6_wildcard_permission_matching (euid : Nat) (username : String)
    (users : List (String × Access.User)) (groups : List (String × Access.Group))
    (m a : String) (h0 : euid ≠ 0) (h1 : users ≠ [])
    (hm : Access.hasColon m = false) :
    Access.check_permission euid username users groups (m ++ ":" ++ a) = true ↔
      ("*" ∈ Access.get_user_permissions username users groups ∨
        (m ++ ":" ++ a) ∈ Access.get_user_permissions username users groups ∨
        (m ++ ":*") ∈ Access.get_user_permissions username users groups) := by
  have hne : users.isEmpty = false := by
    cases users with
    | nil => exact absurd rfl h1
    | cons kv rest => rfl
  unfold Access.check_permission
  rw [Access.beforeFirstColon_append m a hm]
  simp only [h0, if_false, hne, if_neg]
  split_ifs <;> simp_all

/-- Witness for C6: user `bob` holds only `dns:read` via the `viewer` group,
so `dns:read` is granted while `dns:write` is not. -/
theorem c6_wildcard_permission_matching_witness :
    (Access.check_permission 1000 "bob"
        [("bob",
          { permissions := [{ groups := [Access.GroupItem.str "viewer"] }] })]
        [("viewer",
          { default_access := some "read-only",
            modules := some (Access.Modules.list ["dns"]) })]
        ("dns" ++ ":" ++ "read") = true ↔
      ("*" ∈ Access.get_user_permissions "bob"
          [("bob",
            { permissions := [{ groups := [Access.GroupItem.str "viewer"] }] })]
          [("viewer",
            { default_access := some "read-only",
              modules := some (Access.Modules.list ["dns"]) })] ∨
        ("dns" ++ ":" ++ "read") ∈ Access.get_user_permissions "bob"
          [("bob",
            { permissions := [{ groups := [Access.GroupItem.str "viewer"] }] })]
          [("viewer",
            { default_access := some "read-only",
              modules := some (Access.Modules.list ["dns"]) })] ∨
        ("dns" ++ ":*") ∈ Access.get_user_permissions "bob"
          [("bob",
            { permissions := [{ groups := [Access.GroupItem.str "viewer"] }] })]
          [("viewer",
            { default_access := some "read-only",
              modules := some (Access.Modules.list ["dns"]) })])) :=
  c6_wildcard_permission_matching 1000 "bob" _ _ "dns" "read" (by decide)
    (by decide) (by decide)

theorem cfg_loadStep_zero (acc : List (String × Cfg.RouterCfg))
    (f : Cfg.RouterFile) :
    Cfg.loadStep 0 acc f =
      match Cfg.validRouter f with
      | some nr => Cfg.pyInsert acc nr.1 nr.2
      | none => acc := by
  rcases f with ⟨fname, owner, router⟩
  simp only [Cfg.loadStep, Cfg.validRouter]
  cases router with
  | none => split_ifs <;> rfl
  | some r =>
      cases hr : r.rname with
      | none => split_ifs <;> simp [hr]
      | some n =>
          by_cases hf : fname = "README.md" <;> by_cases hn : n = "" <;>
            simp [hf, hn, hr]

theorem cfg_foldl_loadStep_zero :
    ∀ (files : List Cfg.RouterFile) (acc : List (String × Cfg.RouterCfg)),
      files.foldl (Cfg.loadStep 0) acc =
        (files.filterMap Cfg.validRouter).foldl
          (fun a nr => Cfg.pyInsert a nr.1 nr.2) acc
  | [], acc => rfl
  | f :: rest, acc => by
      rw [List.foldl_cons, cfg_foldl_loadStep_zero rest _, cfg_loadStep_zero]
      cases hv : Cfg.validRouter f with
      | none => simp [List.filterMap_cons, hv]
      | some nr => simp [List.filterMap_cons, hv]

/-- C5: router-configuration loading from the fixed system directory —
`load_routers` (here run as root, so that the additional root-ownership
security checks of `config.py` are moot) fails with `FileNotFoundError` when
the directory is missing or no valid configuration was loaded, and otherwise
returns the routers of the sorted `*.yaml` files whose parsed content has a
`router` mapping with a non-empty name, later files overriding earlier ones;
`get_router_config` returns the named router, a `ValueError` for an unknown
name, and the first router when no name is given. -/
theorem c5_router_config_loading (euid : Nat) (fs : Cfg.RoutersFS)
    (rs : List (String × Cfg.RouterCfg)) (n : String) (r : Cfg.RouterCfg)
    (kv : String × Cfg.RouterCfg) (rest : List (String × Cfg.RouterCfg)) :
    (fs.dirExists = false →
      Cfg.load_routers euid fs =
        Except.error (Cfg.CfgError.fileNotFound
          "Router directory not found: /etc/mikro-manager/routers.d")) ∧
    (fs.dirExists = true → euid = 0 → Cfg.claimRouters fs = [] →
      Cfg.load_routers euid fs =
        Except.error (Cfg.CfgError.fileNotFound
          "No valid router configurations found in /etc/mikro-manager/routers.d")) ∧
    (fs.dirExists = true → euid = 0 → Cfg.claimRouters fs ≠ [] →
      Cfg.load_routers euid fs = Except.ok (Cfg.claimRouters fs)) ∧
    (rs.lookup n = some r → n ≠ "" →
      Cfg.get_router_config rs (some n) = Except.ok r) ∧
    (rs = kv :: rest → n ≠ "" → rs.lookup n = none →
      ∃ msg, Cfg.get_router_config rs (some n) = Except.error msg) ∧
    (rs = kv :: rest → Cfg.get_router_config rs none = Except.ok kv.2) := by
  have hfold :
      (Cfg.sortFiles fs.files).foldl (Cfg.loadStep 0) [] =
        Cfg.claimRouters fs :=
    cfg_foldl_loadStep_zero (Cfg.sortFiles fs.files) []
  refine ⟨?_, ?_, ?_, ?_, ?_, ?_⟩
  · intro hdir
    simp [Cfg.load_routers, hdir]
  · intro hdir he hcr
    subst he
    simp only [Cfg.load_routers, hdir]
    rw [hfold, hcr]
    simp
  · intro hdir he hcr
    subst he
    simp only [Cfg.load_routers, hdir]
    rw [hfold]
    have : (Cfg.claimRouters fs).isEmpty = false := by
      cases hc : Cfg.claimRouters fs with
      | nil => exact absurd hc hcr
      | cons a b => rfl
    simp [this]
  · intro hl hn
    cases rs with
    | nil => simp [List.lookup] at hl
    | cons kv0 rest0 =>
        simp only [Cfg.get_router_config, List.isEmpty_cons]
        rw [if_neg (by simp), if_pos hn, hl]
  · intro hrs hn hl
    subst hrs
    refine ⟨"Router '" ++ n ++ "' not found. Available: " ++
      String.intercalate ", " ((kv :: rest).map (fun kv => kv.1)), ?_⟩
    simp only [Cfg.get_router_config, List.isEmpty_cons]
    rw [if_neg (by simp), if_pos hn, hl]
  · intro hrs
    subst hrs
    simp [Cfg.get_router_config]

/-- Witness for C5: a directory with two files out of alphabetical order,
the later (sorted) file overriding the earlier one's router name. -/
theorem c5_router_config_loading_witness :
    Cfg.load_routers 0
        { dirExists := true, dirOwner := 0,
          files :=
            [{ fname := "20-b.yaml", owner := 0,
               router := some { rname := some "office" } },
             { fname := "10-a.yaml", owner := 0,
               router := some { rname := some "office",
                                fields := [("host", "10.0.0.1")] } }] } =
      Except.ok (Cfg.claimRouters
        { dirExists := true, dirOwner := 0,
          files :=
            [{ fname := "20-b.yaml", owner := 0,
               router := some { rname := some "office" } },
             { fname := "10-a.yaml", owner := 0,
               router := some { rname := some "office",
                                fields := [("host", "10.0.0.1")] } }] }) ∧
    Cfg.get_router_config [("office", { rname := some "office" })]
        (some "office") = Except.ok { rname := some "office" } ∧
    Cfg.get_router_config [("office", { rname := some "office" })] none =
      Except.ok { rname := some "office" } := by
  refine ⟨?_, ?_, ?_⟩
  · exact (c5_router_config_loading 0 _ [] "" { rname := none } ("", { rname := none })
      []).2.2.1 rfl rfl (by decide)
  · exact (c5_router_config_loading 0 { dirExists := false }
      [("office", { rname := some "office" })] "office"
      { rname := some "office" } ("", { rname := none }) []).2.2.2.1
      (by decide) (by decide)
  · exact (c5_router_config_loading 0 { dirExists := false }
      [("office", { rname := some "office" })] "office"
      { rname := some "office" }
      ("office", { rname := some "office" }) []).2.2.2.2.2 rfl

/-- C2 counterexample: a run in which `get_router_config` raises `ValueError`
(the `--router` argument names a router absent from the loaded
configuration) is a failing CLI command run, yet `run` does not print an
error and exit 1 — the exception propagates out of `run` unhandled, because
the `get_router_config` call sits outside every `try` block of `cli.py`. -/
theorem c2_run_error_handling_counterexample :
    Cli.RunEnv.someFailure
        { permCheck := none,
          loadRouters := Except.ok [("office", { rname := some "office" })],
          routerArg := some "branch",
          connectAndRun := none } = true ∧
    Cli.run
        { permCheck := none,
          loadRouters := Except.ok [("office", { rname := some "office" })],
          routerArg := some "branch",
          connectAndRun := none } =
      Cli.RunOutcome.uncaught Cli.Exc.valueError := by
  constructor <;> rfl

/-- C2 amended: `run` prints an error to stderr and exits with status 1
exactly for an `AccessDeniedError` raised by the permission check, a
`FileNotFoundError` raised by `load_routers`, or any `Exception` raised
while connecting to the router or executing the command; every other
exception — in particular the `ValueError` `get_router_config` raises for an
unknown router name — propagates out of `run` unhandled. -/
theorem c2_run_error_handling_amended (env : Cli.RunEnv) :
    (∃ s, Cli.run env = Cli.RunOutcome.exitErr s) ↔
      (env.permCheck = some Cli.Exc.accessDenied ∨
        (env.permCheck = none ∧
          env.loadRouters = Except.error Cli.Exc.fileNotFound) ∨
        (env.permCheck = none ∧
          ∃ rs, env.loadRouters = Except.ok rs ∧
            (∃ c, Cfg.get_router_config rs env.routerArg = Except.ok c) ∧
            ∃ e, env.connectAndRun = some e ∧ e.isException = true)) := by
  rcases env with ⟨pc, lr, ra, cr⟩
  simp only [Cli.run]
  cases pc with
  | some e =>
      by_cases he : e = Cli.Exc.accessDenied
      · subst he
        simp
      · simp [he]
  | none =>
      cases lr with
      | error e =>
          by_cases he : e = Cli.Exc.fileNotFound
          · subst he
            simp
          · simp [he]
      | ok rs =>
          cases hg : Cfg.get_router_config rs ra with
          | error m => simp [hg]
          | ok c =>
              cases cr with
              | none => simp [hg]
              | some e =>
                  by_cases hex : e.isException = true
                  · simp [hg, hex]
                  · simp [hg, hex]

/-- C9: `DNSManager.add_entry` validates before mutating — when an entry
with the given name already exists, or the required type-specific field for
the record type is empty, it raises `ValueError`, and since both checks
precede the `path.add` call, no add operation reaches the router and the
entry set is unchanged. -/
theorem c9_dns_add_validates_before_mutating (a : Dns.AddArgs)
    (raws : List Dns.RawRec)
    (h : (Dns.dnsFindEntry a.name raws).isSome = true ∨
      Dns.requiredFieldMissing a) :
    ∃ msg, Dns.dnsAddEntry a raws = Except.error msg := by
  unfold Dns.dnsAddEntry
  cases hf : Dns.dnsFindEntry a.name raws with
  | some e => exact ⟨_, rfl⟩
  | none =>
      rcases h with h | h
      · rw [hf] at h
        simp at h
      · rcases h with ⟨hA, hv⟩ | ⟨ht, hv⟩ | ⟨ht, hv⟩ | ⟨ht, hv⟩ | ⟨ht, hv⟩ |
          ⟨ht, hv⟩ | ⟨ht, hv⟩ | ⟨ht, hv⟩
        · rcases hA with hA | hA <;> simp [hA, hv, Except.map]
        all_goals simp [ht, hv, Except.map]

/-- Witness for C9: adding an `A` record with an empty address, and adding a
name that already exists, both fail. -/
theorem c9_dns_add_validates_before_mutating_witness :
    (∃ msg, Dns.dnsAddEntry { name := "www.lan" } [] = Except.error msg) ∧
    (∃ msg,
      Dns.dnsAddEntry { name := "www.lan", address := "10.0.0.5" }
          [[("name", "www.lan"), ("type", "A"), ("address", "10.0.0.9")]] =
        Except.error msg) :=
  ⟨c9_dns_add_validates_before_mutating { name := "www.lan" } []
      (Or.inr (by decide)),
    c9_dns_add_validates_before_mutating
      { name := "www.lan", address := "10.0.0.5" }
      [[("name", "www.lan"), ("type", "A"), ("address", "10.0.0.9")]]
      (Or.inl (by decide))⟩

theorem searchLoop_eq_filter (pattern : String) (fields : List String) :
    ∀ es : List Res.SRec,
      Res.searchLoop pattern fields es =
        es.filter (fun e => fields.any (Res.fieldMatches pattern e))
  | [] => rfl
  | e :: es => by
      by_cases h : fields.any (Res.fieldMatches pattern e) = true <;>
        simp [Res.searchLoop, List.filter_cons, h,
          searchLoop_eq_filter pattern fields es]

/-- C10: `search_entries` returns each listed entry at most once and in
listing order — with a non-empty field list it equals the filter of the
listing by "some searched field holds a string matching the pattern", hence
is a sublist of the listing (order-preserving, no duplication), and an entry
is in the result exactly when it is listed and one of its searched fields
matches; `DNSManager.search_entries` is this search restricted to the `name`
and `address` fields. -/
theorem c10_search_entries_filter (pattern : String) (fields : List String)
    (entries : List Res.SRec) (raws : List Dns.RawRec) (hf : fields ≠ []) :
    (Res.search_entries pattern (some fields) entries =
      entries.filter (fun e => fields.any (Res.fieldMatches pattern e))) ∧
    (Res.search_entries pattern (some fields) entries).Sublist entries ∧
    (∀ e, e ∈ Res.search_entries pattern (some fields) entries ↔
      e ∈ entries ∧ fields.any (Res.fieldMatches pattern e) = true) ∧
    Dns.dnsSearchEntries pattern raws =
      ((Dns.dnsListEntries raws).filter
          (fun e =>
            Res.fnmatch e.name pattern || Res.fnmatch e.address pattern)).map
        Dns.DnsEntry.toDict := by
  have hmain : ∀ (fl : List String) (es : List Res.SRec),
      fl.isEmpty = false →
      Res.search_entries pattern (some fl) es =
        es.filter (fun e => fl.any (Res.fieldMatches pattern e)) := by
    intro fl es hne
    unfold Res.search_entries
    dsimp only
    rw [hne]
    exact searchLoop_eq_filter pattern fl es
  have hfe : fields.isEmpty = false := by
    cases fields with
    | nil => exact absurd rfl hf
    | cons a b => rfl
  refine ⟨hmain fields entries hfe, ?_, ?_, ?_⟩
  · rw [hmain fields entries hfe]
    exact List.filter_sublist entries
  · intro e
    rw [hmain fields entries hfe]
    simp [List.mem_filter]
  · unfold Dns.dnsSearchEntries
    rw [hmain ["name", "address"] _ (by decide), List.filter_map]
    congr 1
    apply List.filter_congr
    intro e he
    simp [Function.comp, Res.fieldMatches, Res.sget, Dns.DnsEntry.toDict]

/-- Witness for C10 at a concrete pattern and listing. -/
theorem c10_search_entries_filter_witness :
    (Res.search_entries "srv*" (some ["name"])
        [[("name", Res.SVal.s "srv1")], [("name", Res.SVal.s "web1")]] =
      [[("name", Res.SVal.s "srv1")],
        [("name", Res.SVal.s "web1")]].filter
        (fun e => ["name"].any (Res.fieldMatches "srv*" e))) ∧
    (Res.search_entries "srv*" (some ["name"])
        [[("name", Res.SVal.s "srv1")],
          [("name", Res.SVal.s "web1")]]).Sublist
      [[("name", Res.SVal.s "srv1")], [("name", Res.SVal.s "web1")]] ∧
    (∀ e, e ∈ Res.search_entries "srv*" (some ["name"])
        [[("name", Res.SVal.s "srv1")], [("name", Res.SVal.s "web1")]] ↔
      e ∈ [[("name", Res.SVal.s "srv1")], [("name", Res.SVal.s "web1")]] ∧
        ["name"].any (Res.fieldMatches "srv*" e) = true) ∧
    Dns.dnsSearchEntries "srv*" [[("name", "srv1")]] =
      ((Dns.dnsListEntries [[("name", "srv1")]]).filter
          (fun e =>
            Res.fnmatch e.name "srv*" || Res.fnmatch e.address "srv*")).map
        Dns.DnsEntry.toDict :=
  c10_search_entries_filter "srv*" ["name"]
    [[("name", Res.SVal.s "srv1")], [("name", Res.SVal.s "web1")]]
    [[("name", "srv1")]] (by decide)

theorem importGo_all_skipped (kf : String) :
    ∀ (records : List Res.Rec) (st : Res.St),
      (∀ r ∈ records, ∀ v, dget (dpop r ".id") kf = some v → v ≠ "" →
        (Res.find_entry [(kf, v)] st).isSome = true) →
      Res.importGo false kf records st =
        Except.ok (st, { skipped := records.length }, [])
  | [], st, _ => rfl
  | r :: rs, st, h => by
      have hrest :=
        importGo_all_skipped kf rs st
          (fun r' hr' => h r' (List.mem_cons_of_mem r hr'))
      simp only [Res.importGo]
      cases hk : dget (dpop r ".id") kf with
      | none => simp [hrest, Except.map]
      | some v =>
          by_cases hv : v = ""
          · simp [hv, hrest, Except.map]
          · have hfind := h r (List.mem_cons_self r rs) v hk hv
            obtain ⟨ex, hex⟩ := Option.isSome_iff_exists.mp hfind
            dsimp only
            rw [if_neg hv, hex]
            simp [hrest, Except.map]

/-- C3: export followed by import is a no-op merge — importing, with
`overwrite=False` and the default `key_field='name'`, the records that
`export_entries(format='json')` serialises (JSON primitives are out-of-scope
collaborators whose dump/parse composition is the identity on these record
lists, so those records are exactly `list_entries`) adds nothing: every
record is skipped, the returned stats have `added = 0` and `updated = 0`, no
`add_entry` or `update_entry` call is issued, and the router state is
unchanged. -/
theorem c3_export_import_roundtrip_noop (st : Res.St) :
    Res.import_entries "json" (Res.list_entries st) false "name" st =
      Except.ok (st, { skipped := (Res.list_entries st).length }, []) := by
  unfold Res.import_entries
  rw [if_pos rfl]
  apply importGo_all_skipped
  intro r hr v hv hne
  rw [dget_dpop_ne r "name" ".id" (by decide)] at hv
  unfold Res.find_entry
  apply List.find?_isSome.mpr
  exact ⟨r, hr, by simp [List.all_cons, hv]⟩

theorem importGo_stats (ow : Bool) (kf : String) :
    ∀ (records : List Res.Rec) (st st' : Res.St) (stats : Res.Stats)
      (ops : List Res.Op),
      Res.importGo ow kf records st = Except.ok (st', stats, ops) →
      stats.added + stats.updated + stats.skipped = records.length ∧
      (ow = false → stats.updated = 0) ∧
      ops.countP Res.Op.isAdd = stats.added ∧
      ops.countP Res.Op.isUpdate = stats.updated ∧
      ∀ op ∈ ops, dget op.entry ".id" = none := by
  intro records
  induction records with
  | nil =>
      intro st st' stats ops h
      simp only [Res.importGo, Except.ok.injEq, Prod.mk.injEq] at h
      obtain ⟨-, h2, h3⟩ := h
      subst h2
      subst h3
      simp
  | cons r rs ih =>
      intro st st' stats ops h
      have skipped_of : ∀ st0 : Res.St,
          (Res.importGo ow kf rs st0).map
              (fun o =>
                (o.1, { o.2.1 with skipped := o.2.1.skipped + 1 }, o.2.2)) =
            Except.ok (st', stats, ops) →
          stats.added + stats.updated + stats.skipped = (r :: rs).length ∧
          (ow = false → stats.updated = 0) ∧
          ops.countP Res.Op.isAdd = stats.added ∧
          ops.countP Res.Op.isUpdate = stats.updated ∧
          ∀ op ∈ ops, dget op.entry ".id" = none := by
        intro st0 h'
        cases hsub : Res.importGo ow kf rs st0 with
        | error e =>
            rw [hsub] at h'
            simp [Except.map] at h'
        | ok o =>
            rcases o with ⟨st1, stats1, ops1⟩
            rw [hsub] at h'
            simp only [Except.map, Except.ok.injEq, Prod.mk.injEq] at h'
            obtain ⟨h1, h2, h3⟩ := h'
            obtain ⟨ih1, ih2, ih3, ih4, ih5⟩ := ih st0 st1 stats1 ops1 hsub
            subst h2
            subst h3
            refine ⟨by simp; omega, fun how => by simp [ih2 how], by simp [ih3],
              by simp [ih4], ih5⟩
      simp only [Res.importGo] at h
      cases hk : dget (dpop r ".id") kf with
      | none =>
          rw [hk] at h
          exact skipped_of st h
      | some v =>
          rw [hk] at h
          dsimp only at h
          by_cases hv : v = ""
          · rw [if_pos hv] at h
            exact skipped_of st h
          · rw [if_neg hv] at h
            cases hfind : Res.find_entry [(kf, v)] st with
            | some ex =>
                rw [hfind] at h
                dsimp only at h
                cases ow with
                | false =>
                    simp only [Bool.false_eq_true, if_false] at h
                    exact skipped_of st h
                | true =>
                    rw [if_pos rfl] at h
                    cases hid : dget ex ".id" with
                    | none =>
                        rw [hid] at h
                        simp at h
                    | some eid =>
                        rw [hid] at h
                        dsimp only at h
                        cases hsub : Res.importGo true kf rs
                            (Res.update_entry eid (dpop r ".id") st) with
                        | error e =>
                            rw [hsub] at h
                            simp [Except.map] at h
                        | ok o =>
                            rcases o with ⟨st1, stats1, ops1⟩
                            rw [hsub] at h
                            simp only [Except.map, Except.ok.injEq,
                              Prod.mk.injEq] at h
                            obtain ⟨h1, h2, h3⟩ := h
                            obtain ⟨ih1, ih2, ih3, ih4, ih5⟩ :=
                              ih _ st1 stats1 ops1 hsub
                            subst h2
                            subst h3
                            refine ⟨by simp; omega,
                              fun how => absurd how (by decide), ?_, ?_, ?_⟩
                            · simp [List.countP_cons, Res.Op.isAdd, ih3]
                            · simp [List.countP_cons, Res.Op.isUpdate, ih4]
                            · intro op hop
                              rcases List.mem_cons.mp hop with hop | hop
                              · subst hop
                                exact dget_dpop_self r ".id"
                              · exact ih5 op hop
            | none =>
                rw [hfind] at h
                dsimp only at h
                cases hsub : Res.importGo ow kf rs
                    (Res.add_entry (dpop r ".id") st) with
                | error e =>
                    rw [hsub] at h
                    simp [Except.map] at h
                | ok o =>
                    rcases o with ⟨st1, stats1, ops1⟩
                    rw [hsub] at h
                    simp only [Except.map, Except.ok.injEq, Prod.mk.injEq] at h
                    obtain ⟨h1, h2, h3⟩ := h
                    obtain ⟨ih1, ih2, ih3, ih4, ih5⟩ := ih _ st1 stats1 ops1 hsub
                    subst h2
                    subst h3
                    refine ⟨by simp; omega, fun how => by simp [ih2 how],
                      ?_, ?_, ?_⟩
                    · simp [List.countP_cons, Res.Op.isAdd, ih3]
                    · simp [List.countP_cons, Res.Op.isUpdate, ih4]
                    · intro op hop
                      rcases List.mem_cons.mp hop with hop | hop
                      · subst hop
                        exact dget_dpop_self r ".id"
                      · exact ih5 op hop

/-- C4: merge semantics of `import_entries` — on a successful import each
record lands in exactly one stats bucket, so `added + updated + skipped`
equals the number of records; `updated` is 0 whenever `overwrite` is false;
the mutation trace contains exactly `added` add calls and `updated` update
calls; and the `.id` field has been removed from every record a mutation
applies. -/
theorem c4_import_merge_semantics (records : List Res.Rec) (ow : Bool)
    (kf : String) (st st' : Res.St) (stats : Res.Stats) (ops : List Res.Op)
    (h : Res.import_entries "json" records ow kf st =
      Except.ok (st', stats, ops)) :
    stats.added + stats.updated + stats.skipped = records.length ∧
    (ow = false → stats.updated = 0) ∧
    ops.countP Res.Op.isAdd = stats.added ∧
    ops.countP Res.Op.isUpdate = stats.updated ∧
    ∀ op ∈ ops, dget op.entry ".id" = none := by
  unfold Res.import_entries at h
  rw [if_pos rfl] at h
  exact importGo_stats ow kf records st st' stats ops h

/-- Witness for C4: importing two records — one updating an existing entry
with `overwrite`, one new — yields one update and one add. -/
theorem c4_import_merge_semantics_witness :
    Res.import_entries "json"
        [[("name", "a"), ("address", "10.0.0.2")], [("name", "b")]] true "name"
        { nextId := 1,
          entries := [[(".id", "*0"), ("name", "a"), ("address", "10.0.0.1")]] } =
      Except.ok
        ({ nextId := 2,
           entries :=
             [[(".id", "*0"), ("name", "a"), ("address", "10.0.0.2")],
              [("name", "b"), (".id", "*1")]] },
          { added := 1, updated := 1, skipped := 0 },
          [Res.Op.update "*0" [("name", "a"), ("address", "10.0.0.2")],
           Res.Op.add [("name", "b")]]) ∧
    ({ added := 1, updated := 1, skipped := 0 } : Res.Stats).added +
        ({ added := 1, updated := 1, skipped := 0 } : Res.Stats).updated +
        ({ added := 1, updated := 1, skipped := 0 } : Res.Stats).skipped =
      [[("name", "a"), ("address", "10.0.0.2")], [("name", "b")]].length ∧
    [Res.Op.update "*0" [("name", "a"), ("address", "10.0.0.2")],
        Res.Op.add [("name", "b")]].countP Res.Op.isAdd = 1 ∧
    [Res.Op.update "*0" [("name", "a"), ("address", "10.0.0.2")],
        Res.Op.add [("name", "b")]].countP Res.Op.isUpdate = 1 := by
  have hrun : Res.import_entries "json"
      [[("name", "a"), ("address", "10.0.0.2")], [("name", "b")]] true "name"
      { nextId := 1,
        entries := [[(".id", "*0"), ("name", "a"), ("address", "10.0.0.1")]] } =
      Except.ok
        ({ nextId := 2,
           entries :=
             [[(".id", "*0"), ("name", "a"), ("address", "10.0.0.2")],
              [("name", "b"), (".id", "*1")]] },
          { added := 1, updated := 1, skipped := 0 },
          [Res.Op.update "*0" [("name", "a"), ("address", "10.0.0.2")],
           Res.Op.add [("name", "b")]]) := by rfl
  have hc := c4_import_merge_semantics _ true "name" _ _ _ _ hrun
  exact ⟨hrun, hc.1, hc.2.2.1, hc.2.2.2.1⟩

/-- C7: format conversion is limited to JSON and CSV — `export_entries` and
`import_entries` raise `ValueError` for every format string other than
`json` and `csv`; export with `json` returns the JSON serialization of
`list_entries`, and export with `csv` returns the empty string when there are
no entries and otherwise a CSV whose header row is the key set of the first
entry. -/
theorem c7_format_conversion_json_csv (fmt : String) (st : Res.St)
    (records : List Res.Rec) (ow : Bool) (kf : String) (e : Res.Rec)
    (es : List Res.Rec) :
    (fmt ≠ "json" → fmt ≠ "csv" →
      Res.export_entries fmt st =
        Except.error ("Unsupported format: " ++ fmt) ∧
      Res.import_entries fmt records ow kf st =
        Except.error ("Unsupported format: " ++ fmt)) ∧
    Res.export_entries "json" st =
      Except.ok (Res.jsonDumps (Res.list_entries st)) ∧
    (Res.list_entries st = [] → Res.export_entries "csv" st = Except.ok "") ∧
    (Res.list_entries st = e :: es → ∀ s,
      Res.export_entries "csv" st = Except.ok s →
      ∃ rest, s = Res.csvRow (e.map (fun kv => kv.1)) ++ "\r\n" ++ rest) := by
  have hcsv : Res.export_entries "csv" st = Res.csvDump (Res.list_entries st) := by
    simp [Res.export_entries]
  refine ⟨?_, ?_, ?_, ?_⟩
  · intro h1 h2
    exact ⟨by simp [Res.export_entries, h1, h2],
      by simp [Res.import_entries, h1, h2]⟩
  · simp [Res.export_entries]
  · intro h0
    rw [hcsv, h0]
    rfl
  · intro h0 s hs
    rw [hcsv, h0] at hs
    simp only [Res.csvDump] at hs
    cases hcr : Res.csvRows (e.map (fun kv => kv.1)) (e :: es) with
    | error m =>
        rw [hcr] at hs
        simp [Except.map] at hs
    | ok body =>
        rw [hcr] at hs
        simp only [Except.map, Except.ok.injEq] at hs
        exact ⟨body, hs.symm⟩

/-- Witness for C7: the format `xml` is rejected by both directions; a
one-entry state exports to a CSV headed by its key row. -/
theorem c7_format_conversion_json_csv_witness :
    (Res.export_entries "xml" { entries := [] } =
        Except.error ("Unsupported format: " ++ "xml") ∧
      Res.import_entries "xml" [] false "name" { entries := [] } =
        Except.error ("Unsupported format: " ++ "xml")) ∧
    (Res.export_entries "csv" { entries := [] } = Except.ok "") ∧
    ∃ rest,
      "name,addr\r\na,\"1,2\"\r\n" =
        Res.csvRow ([("name", "a"), ("addr", "1,2")].map (fun kv => kv.1)) ++
          "\r\n" ++ rest := by
  refine ⟨?_, ?_, ?_⟩
  · exact (c7_format_conversion_json_csv "xml" { entries := [] } [] false
      "name" [] []).1 (by decide) (by decide)
  · exact (c7_format_conversion_json_csv "xml" { entries := [] } [] false
      "name" [] []).2.2.1 rfl
  · exact (c7_format_conversion_json_csv "csv"
      { entries := [[("name", "a"), ("addr", "1,2")]] } [] false "name"
      [("name", "a"), ("addr", "1,2")] []).2.2.2 rfl
      "name,addr\r\na,\"1,2\"\r\n" (by rfl)

/-- C8: access control is open by default — with an empty users
configuration `get_user_permissions` yields the wildcard set and
`check_permission` always grants; root is always granted; a username missing
from a non-empty users configuration resolves to the empty permission set and
is always denied. -/
theorem c8_access_open_by_default (euid : Nat) (username : String)
    (users : List (String × Access.User)) (groups : List (String × Access.Group)) :
    (users = [] →
      Access.get_user_permissions username users groups = {"*"} ∧
      ∀ req, Access.check_permission euid username users groups req = true) ∧
    (euid = 0 →
      ∀ req, Access.check_permission euid username users groups req = true) ∧
    (euid ≠ 0 → users ≠ [] → users.lookup username = none →
      Access.get_user_permissions username users groups = ∅ ∧
      ∀ req, Access.check_permission euid username users groups req = false) := by
  refine ⟨?_, ?_, ?_⟩
  · intro hu
    subst hu
    refine ⟨by simp [Access.get_user_permissions], fun req => ?_⟩
    unfold Access.check_permission
    split_ifs <;> simp_all [Access.get_user_permissions]
  · intro h0 req
    simp [Access.check_permission, h0]
  · intro h0 h1 hl
    have hne : users.isEmpty = false := by
      cases users with
      | nil => exact absurd rfl h1
      | cons kv rest => rfl
    have hperm :
        Access.get_user_permissions username users groups = ∅ := by
      unfold Access.get_user_permissions
      rw [hne, hl]
      simp
    refine ⟨hperm, fun req => ?_⟩
    unfold Access.check_permission
    simp [h0, hne, hperm]

/-- Witness for C8, exercising all three branches at concrete inputs. -/
theorem c8_access_open_by_default_witness :
    (Access.get_user_permissions "alice" [] [] = {"*"} ∧
      Access.check_permission 1000 "alice" [] [] "dns:read" = true) ∧
    Access.check_permission 0 "root" [("alice", {})] [] "dns:write" = true ∧
    (Access.get_user_permissions "mallory" [("alice", {})] [] = ∅ ∧
      Access.check_permission 1000 "mallory" [("alice", {})] [] "dns:read" =
        false) := by
  have h1 := (c8_access_open_by_default 1000 "alice" [] []).1 rfl
  have h2 :=
    (c8_access_open_by_default 0 "root" [("alice", {})] []).2.1 rfl "dns:write"
  have h3 :=
    (c8_access_open_by_default 1000 "mallory" [("alice", {})] []).2.2
      (by decide) (by decide) (by decide)
  exact ⟨⟨h1.1, h1.2 "dns:read"⟩, h2, ⟨h3.1, h3.2 "dns:read"⟩⟩

end MM
